import Mathlib

/-!
Verification of the COPD/asthma staging scripts.

All classification logic is embedded shallowly:

* `src/copd.js` (`computeCOPD`): GOLD grade from FEV1 % predicted, ABE group
  from exacerbation history and mMRC score, a diagnostic note from the
  FEV1/FVC ratio.
* `src/unnamed/part_000` (`computeCOPD`, second version): the same
  classification plus a treatment recommendation keyed on the ABE group.
* `src/asthma.js` / `src/unnamed/part_001` (`computeAsthmaStage`): asthma
  severity as the maximum of four band contributions, and a stage name.

JavaScript numbers read from the form with `parseFloat` are modelled as `ℚ`
(the thresholds 80, 50, 30, 60, 0.7 and decimal form values are exact);
`parseInt` results as `ℤ`.  A field whose parse yields `NaN` (missing or
non-numeric input) is modelled as `none` of an `Option`.
-/

namespace CopdAsthma

/-- A well-formed COPD input record: every required field parsed successfully
(`ratio`, `fev1percent` via `parseFloat`; `exacerbations`, `hospitalizations`,
`mmrc` via `parseInt`).  `inhalers` and `frequency` are carried along for the
report only. -/
structure CopdInput where
  ratio : ℚ
  fev1percent : ℚ
  exacerbations : ℤ
  hospitalizations : ℤ
  mmrc : ℤ
  inhalers : List String
  frequency : String
deriving Repr, DecidableEq

/-- The GOLD grade values produced by `computeCOPD` (`src/copd.js` lines
33-45). -/
inductive GoldGrade where
  | gold1
  | gold2
  | gold3
  | gold4
deriving Repr, DecidableEq

/-- The ABE group values produced by `computeCOPD` (`src/copd.js` lines
50-62). -/
inductive AbeGroup where
  | A
  | B
  | E
deriving Repr, DecidableEq

/-- GOLD grade cascade of `src/copd.js` lines 33-45: descending thresholds on
`fev1percent`, first match wins. -/
def goldGrade (i : CopdInput) : GoldGrade :=
  if i.fev1percent ≥ 80 then .gold1
  else if i.fev1percent ≥ 50 then .gold2
  else if i.fev1percent ≥ 30 then .gold3
  else .gold4

/-- ABE group cascade of `src/copd.js` lines 50-62: hospitalizations/
exacerbations first, then mMRC, else group A. -/
def abeGroup (i : CopdInput) : AbeGroup :=
  if i.hospitalizations ≥ 1 ∨ i.exacerbations ≥ 2 then .E
  else if i.mmrc ≥ 2 then .B
  else .A

/-- GOLD grade cascade of the second source version,
`src/unnamed/part_000` lines 33-45 (textually identical branch structure,
embedded separately so the two versions can be compared). -/
def goldGradeV2 (i : CopdInput) : GoldGrade :=
  if i.fev1percent ≥ 80 then .gold1
  else if i.fev1percent ≥ 50 then .gold2
  else if i.fev1percent ≥ 30 then .gold3
  else .gold4

/-- ABE group cascade of the second source version,
`src/unnamed/part_000` lines 50-62. -/
def abeGroupV2 (i : CopdInput) : AbeGroup :=
  if i.hospitalizations ≥ 1 ∨ i.exacerbations ≥ 2 then .E
  else if i.mmrc ≥ 2 then .B
  else .A

/-- The per-grade description text assigned alongside the grade in the cascade
of `src/copd.js` lines 33-45 (each branch sets the pair together). -/
def goldDescription (g : GoldGrade) : String :=
  match g with
  | .gold1 => "Airflow obstruction is mild with FEV₁ ≥80% predicted."
  | .gold2 => "Airflow obstruction is moderate with FEV₁ between 50% and 79% predicted."
  | .gold3 => "Airflow obstruction is severe with FEV₁ between 30% and 49% predicted."
  | .gold4 => "Airflow obstruction is very severe with FEV₁ <30% predicted."

/-- The per-group description text assigned alongside the group in the cascade
of `src/copd.js` lines 50-62. -/
def abeDescription (g : AbeGroup) : String :=
  match g with
  | .E => "High risk for exacerbations: two or more moderate exacerbations or at least one hospitalization in the past year."
  | .B => "Higher symptom burden: mMRC score ≥2 with 0–1 moderate exacerbations and no hospitalization in the past year."
  | .A => "Lower symptom burden: mMRC score 0–1 with 0–1 moderate exacerbations and no hospitalization in the past year."

/-- Classification result of `computeCOPD` in `src/copd.js`: the grade/group
pair with their descriptions, and which branch of the diagnostic-criterion
note was rendered (`true` when `ratio < 0.7`, lines 67-75). -/
structure CopdResult where
  goldGrade : GoldGrade
  goldDescription : String
  abeGroup : AbeGroup
  abeDescription : String
  diagBelowThreshold : Bool
deriving Repr, DecidableEq

/-- The classification portion of `computeCOPD` in `src/copd.js`
(lines 30-75), after validation has succeeded. -/
def classifyCOPD (i : CopdInput) : CopdResult :=
  { goldGrade := goldGrade i
    goldDescription := goldDescription (goldGrade i)
    abeGroup := abeGroup i
    abeDescription := abeDescription (abeGroup i)
    diagBelowThreshold := decide (i.ratio < 7/10) }

/-- The Group A treatment paragraph of `src/unnamed/part_000` lines 84-90. -/
def recommendationA : String :=
  "<p><strong>GOLD 2025 recommended treatment:</strong></p><ul>" ++
  "<li>Offer bronchodilator therapy to relieve breathlessness; this may be a short‑acting or long‑acting bronchodilator. A long‑acting bronchodilator (LABA or LAMA) is preferred if available and affordable except in patients with very occasional breathlessness.</li>" ++
  "<li>Continue treatment if benefit is documented; reassess regularly.</li>" ++
  "<li>Rescue short‑acting bronchodilators should be prescribed to all patients for immediate symptom relief【525439884052066†L1210-L1211】.</li>" ++
  "</ul>"

/-- The Group B treatment paragraph of `src/unnamed/part_000` lines 91-98. -/
def recommendationB : String :=
  "<p><strong>GOLD 2025 recommended treatment:</strong></p><ul>" ++
  "<li>Initiate therapy with a combination of a long‑acting beta agonist and a long‑acting muscarinic antagonist (LABA+LAMA); clinical trials demonstrate that LABA+LAMA is superior to LAMA alone for symptom control.</li>" ++
  "<li>If LABA+LAMA is not appropriate, there is no evidence to recommend one class of long‑acting bronchodilator over another; select either LABA or LAMA based on the patient’s perception of symptom relief.</li>" ++
  "<li>Investigate and manage comorbidities that may contribute to symptoms.</li>" ++
  "<li>Rescue short‑acting bronchodilators should be prescribed to all patients for immediate symptom relief【525439884052066†L1210-L1211】.</li>" ++
  "</ul>"

/-- The Group E treatment paragraph of `src/unnamed/part_000` lines 99-107. -/
def recommendationE : String :=
  "<p><strong>GOLD 2025 recommended treatment:</strong></p><ul>" ++
  "<li>A dual bronchodilator combination (LABA+LAMA) is the preferred initial therapy.</li>" ++
  "<li>Do not initiate LABA+ICS without LAMA; if an inhaled corticosteroid is indicated (e.g., blood eosinophil count ≥300 cells/µL or concomitant asthma), use triple therapy with LABA+LAMA+ICS, which is superior to LABA+ICS.</li>" ++
  "<li>Consider triple therapy at diagnosis when eosinophil count is high (≥300 cells/µL).</li>" ++
  "<li>Patients with COPD and co‑existing asthma should be treated like asthma patients, making inhaled corticosteroids mandatory.</li>" ++
  "<li>Rescue short‑acting bronchodilators should be prescribed to all patients for immediate symptom relief【525439884052066†L1210-L1211】.</li>" ++
  "</ul>"

/-- The recommendation chain of `src/unnamed/part_000` lines 83-108:
`copdRecommendation` starts empty and an `if`/`else if` chain on the ABE group
appends exactly one of the three paragraphs (the final empty case is the
source's implicit fall-through, where `copdRecommendation` stays `''`). -/
def copdRecommendation (i : CopdInput) : String :=
  if abeGroupV2 i = .A then recommendationA
  else if abeGroupV2 i = .B then recommendationB
  else if abeGroupV2 i = .E then recommendationE
  else ""

/-- Classification result of the second version, `src/unnamed/part_000`:
as `CopdResult` plus the treatment recommendation of lines 83-108. -/
structure CopdResultV2 where
  goldGrade : GoldGrade
  goldDescription : String
  abeGroup : AbeGroup
  abeDescription : String
  diagBelowThreshold : Bool
  recommendation : String
deriving Repr, DecidableEq

/-- The classification portion of `computeCOPD` in `src/unnamed/part_000`
(lines 30-108), after validation has succeeded. -/
def classifyCOPDV2 (i : CopdInput) : CopdResultV2 :=
  { goldGrade := goldGradeV2 i
    goldDescription := goldDescription (goldGradeV2 i)
    abeGroup := abeGroupV2 i
    abeDescription := abeDescription (abeGroupV2 i)
    diagBelowThreshold := decide (i.ratio < 7/10)
    recommendation := copdRecommendation i }

/-- The raw COPD form as `computeCOPD` reads it (`src/copd.js` lines 10-22):
each numeric field is `none` when its parse yields `NaN`, and `mmrc` is `none`
when no radio button is checked. -/
structure CopdForm where
  ratio : Option ℚ
  fev1percent : Option ℚ
  exacerbations : Option ℤ
  hospitalizations : Option ℤ
  mmrc : Option ℤ
  inhalers : List String
  frequency : String
deriving Repr, DecidableEq

/-- `computeCOPD` of `src/copd.js` up to the classification: the validation
guard of lines 25-28 returns early (`none`, after an alert) when any required
field failed to parse; otherwise the classification of lines 30-75 runs. -/
def computeCOPD (f : CopdForm) : Option CopdResult :=
  match f.ratio, f.fev1percent, f.exacerbations, f.hospitalizations, f.mmrc with
  | some r, some fp, some ex, some ho, some m =>
      some (classifyCOPD ⟨r, fp, ex, ho, m, f.inhalers, f.frequency⟩)
  | _, _, _, _, _ => none

/-- The part of the page state `computeCOPD` mutates: whether the form is
visible and what the result container shows (`src/copd.js` lines 88-93). -/
structure CopdDisplay where
  formVisible : Bool
  result : Option CopdResult
deriving Repr, DecidableEq

/-- One invocation of `computeCOPD` as a transformer of the display state: on
validation failure the function returns before touching the page, otherwise it
hides the form and shows the result (`src/copd.js` lines 25-28 and 88-93). -/
def copdStep (f : CopdForm) (d : CopdDisplay) : CopdDisplay :=
  match computeCOPD f with
  | none => d
  | some r => { formVisible := false, result := some r }

/-- A raw asthma input as `computeAsthmaStage` reads it (`src/asthma.js`
lines 105-108): `fev1` is `none` when `parseFloat` yields `NaN` (field left
blank); the three category fields hold arbitrary strings. -/
structure AsthmaInput where
  fev1 : Option ℚ
  daytime : String
  nighttime : String
  activity : String
deriving Repr, DecidableEq

/-- The object literal `daytimeMap` of `src/asthma.js` line 120; an absent key
gives `undefined`, modelled as `none`. -/
def daytimeMap (s : String) : Option ℕ :=
  if s = "<=2" then some 1
  else if s = "3-6" then some 2
  else if s = "daily" then some 3
  else if s = "throughout" then some 4
  else none

/-- The object literal `nighttimeMap` of `src/asthma.js` line 121. -/
def nighttimeMap (s : String) : Option ℕ :=
  if s = "<=2" then some 1
  else if s = "3-4" then some 2
  else if s = "5+" then some 3
  else if s = "often" then some 4
  else none

/-- The object literal `activityMap` of `src/asthma.js` line 122. -/
def activityMap (s : String) : Option ℕ :=
  if s = "none" then some 1
  else if s = "minor" then some 2
  else if s = "some" then some 3
  else if s = "extreme" then some 4
  else none

/-- The severity accumulation of `src/asthma.js` lines 125-135: start at 1,
fold in the FEV1 band when `fev1` parsed, then `Math.max` with each category
lookup, where `map[key] || 1` is `Option.getD 1` (all stored map values are
positive, so `|| 1` fires exactly on a failed lookup). -/
def asthmaSeverity (i : AsthmaInput) : ℕ :=
  let s : ℕ := 1
  let s : ℕ :=
    match i.fev1 with
    | some f => if f < 60 then max s 4 else if f < 80 then max s 3 else s
    | none => s
  let s : ℕ := max s ((daytimeMap i.daytime).getD 1)
  let s : ℕ := max s ((nighttimeMap i.nighttime).getD 1)
  max s ((activityMap i.activity).getD 1)

/-- The `switch (severity)` of `src/asthma.js` lines 140-165, stage-name arm
(the `default` branch repeats the intermittent name). -/
def stageName (sev : ℕ) : String :=
  match sev with
  | 1 => "Intermittent (Mild) Asthma"
  | 2 => "Mild Persistent Asthma"
  | 3 => "Moderate Persistent Asthma"
  | 4 => "Severe Persistent Asthma"
  | _ => "Intermittent (Mild) Asthma"

/-- The `switch (severity)` of `src/asthma.js` lines 140-165, description arm. -/
def stageDescription (sev : ℕ) : String :=
  match sev with
  | 1 => "Symptoms occur infrequently (≤2 days/week), with minimal nighttime waking (≤2 times/month) and no limitation of activities. Lung function (FEV₁) is typically ≥80% predicted."
  | 2 => "Symptoms are present on 3–6 days per week or 3–4 nights per month. There may be minor limitation of activity and FEV₁ is ≥80% predicted."
  | 3 => "Symptoms occur daily and nighttime awakenings ≥5 times per month. There is some limitation of activities and lung function is between 60–80% predicted."
  | 4 => "Symptoms are present throughout the day, nighttime symptoms occur often, activities are extremely limited, and lung function is ≤60% predicted."
  | _ => "Symptoms occur infrequently with minimal impact on daily activities."

/-- Classification result of `computeAsthmaStage` (`src/asthma.js`). -/
structure AsthmaResult where
  severity : ℕ
  stageName : String
  stageDescription : String
deriving Repr, DecidableEq

/-- The classification portion of `computeAsthmaStage` in `src/asthma.js`
(lines 119-165). -/
def computeAsthmaStage (i : AsthmaInput) : AsthmaResult :=
  { severity := asthmaSeverity i
    stageName := stageName (asthmaSeverity i)
    stageDescription := stageDescription (asthmaSeverity i) }

/-- `daytimeMap` of the second source version, `src/unnamed/part_001`
line 90 (textually identical, embedded separately for the comparison). -/
def daytimeMapV2 (s : String) : Option ℕ :=
  if s = "<=2" then some 1
  else if s = "3-6" then some 2
  else if s = "daily" then some 3
  else if s = "throughout" then some 4
  else none

/-- `nighttimeMap` of `src/unnamed/part_001` line 91. -/
def nighttimeMapV2 (s : String) : Option ℕ :=
  if s = "<=2" then some 1
  else if s = "3-4" then some 2
  else if s = "5+" then some 3
  else if s = "often" then some 4
  else none

/-- `activityMap` of `src/unnamed/part_001` line 92. -/
def activityMapV2 (s : String) : Option ℕ :=
  if s = "none" then some 1
  else if s = "minor" then some 2
  else if s = "some" then some 3
  else if s = "extreme" then some 4
  else none

/-- The severity accumulation of `src/unnamed/part_001` lines 95-105. -/
def asthmaSeverityV2 (i : AsthmaInput) : ℕ :=
  let s : ℕ := 1
  let s : ℕ :=
    match i.fev1 with
    | some f => if f < 60 then max s 4 else if f < 80 then max s 3 else s
    | none => s
  let s : ℕ := max s ((daytimeMapV2 i.daytime).getD 1)
  let s : ℕ := max s ((nighttimeMapV2 i.nighttime).getD 1)
  max s ((activityMapV2 i.activity).getD 1)

/-- The `switch (severity)` of `src/unnamed/part_001` lines 110-135,
stage-name arm. -/
def stageNameV2 (sev : ℕ) : String :=
  match sev with
  | 1 => "Intermittent (Mild) Asthma"
  | 2 => "Mild Persistent Asthma"
  | 3 => "Moderate Persistent Asthma"
  | 4 => "Severe Persistent Asthma"
  | _ => "Intermittent (Mild) Asthma"

/-- The `switch (severity)` of `src/unnamed/part_001` lines 110-135,
description arm. -/
def stageDescriptionV2 (sev : ℕ) : String :=
  match sev with
  | 1 => "Symptoms occur infrequently (≤2 days/week), with minimal nighttime waking (≤2 times/month) and no limitation of activities. Lung function (FEV₁) is typically ≥80% predicted."
  | 2 => "Symptoms are present on 3–6 days per week or 3–4 nights per month. There may be minor limitation of activity and FEV₁ is ≥80% predicted."
  | 3 => "Symptoms occur daily and nighttime awakenings ≥5 times per month. There is some limitation of activities and lung function is between 60–80% predicted."
  | 4 => "Symptoms are present throughout the day, nighttime symptoms occur often, activities are extremely limited, and lung function is ≤60% predicted."
  | _ => "Symptoms occur infrequently with minimal impact on daily activities."

/-- The classification portion of `computeAsthmaStage` in
`src/unnamed/part_001` (lines 89-135). -/
def computeAsthmaStageV2 (i : AsthmaInput) : AsthmaResult :=
  { severity := asthmaSeverityV2 i
    stageName := stageNameV2 (asthmaSeverityV2 i)
    stageDescription := stageDescriptionV2 (asthmaSeverityV2 i) }

/-! ### Spec-side band functions

These follow the wording of the specification (§4.2) rather than the source:
four independent category-to-integer contributions.  They are used to state
that the source's severity accumulation equals the maximum of the four. -/

/-- Spec wording: FEV1 band `<60→4, 60–79→3, ≥80 or absent→1`. -/
def fev1Band (f : Option ℚ) : ℕ :=
  match f with
  | none => 1
  | some x => if x < 60 then 4 else if x < 80 then 3 else 1

/-- Spec wording: daytime category table, unrecognized values contribute 1. -/
def daytimeBand (s : String) : ℕ :=
  if s = "<=2" then 1
  else if s = "3-6" then 2
  else if s = "daily" then 3
  else if s = "throughout" then 4
  else 1

/-- Spec wording: nighttime category table, unrecognized values contribute 1. -/
def nighttimeBand (s : String) : ℕ :=
  if s = "<=2" then 1
  else if s = "3-4" then 2
  else if s = "5+" then 3
  else if s = "often" then 4
  else 1

/-- Spec wording: activity category table, unrecognized values contribute 1. -/
def activityBand (s : String) : ℕ :=
  if s = "none" then 1
  else if s = "minor" then 2
  else if s = "some" then 3
  else if s = "extreme" then 4
  else 1

/-- The three fixed treatment paragraphs of `src/unnamed/part_000` as a
lookup table keyed on the ABE group (the spec's "static lookup by ABE
group"). -/
def copdRecommendationTable : AbeGroup → String
  | .A => recommendationA
  | .B => recommendationB
  | .E => recommendationE

/-! ## Helper lemmas -/

/-- A `daytimeMap` lookup with the source's `|| 1` fallback is the
spec-side daytime band. -/
theorem daytimeMap_getD (s : String) : (daytimeMap s).getD 1 = daytimeBand s := by
  unfold daytimeMap daytimeBand
  split_ifs <;> rfl

/-- A `nighttimeMap` lookup with the `|| 1` fallback is the spec-side
nighttime band. -/
theorem nighttimeMap_getD (s : String) : (nighttimeMap s).getD 1 = nighttimeBand s := by
  unfold nighttimeMap nighttimeBand
  split_ifs <;> rfl

/-- An `activityMap` lookup with the `|| 1` fallback is the spec-side
activity band. -/
theorem activityMap_getD (s : String) : (activityMap s).getD 1 = activityBand s := by
  unfold activityMap activityBand
  split_ifs <;> rfl

/-- The severity accumulation of `src/asthma.js` lines 125-135 computes the
maximum of the four spec-side band contributions. -/
theorem asthmaSeverity_eq_bands (i : AsthmaInput) :
    asthmaSeverity i =
      max (max (max (fev1Band i.fev1) (daytimeBand i.daytime)) (nighttimeBand i.nighttime))
        (activityBand i.activity) := by
  obtain ⟨f, d, n, a⟩ := i
  simp only [asthmaSeverity, daytimeMap_getD, nighttimeMap_getD, activityMap_getD]
  cases f with
  | none => simp [fev1Band]
  | some x =>
    simp only [fev1Band]
    split_ifs <;> omega

/-- The two severity accumulations are literally the same computation. -/
theorem asthmaSeverityV2_eq (i : AsthmaInput) : asthmaSeverityV2 i = asthmaSeverity i := rfl

theorem fev1Band_bounds (f : Option ℚ) : 1 ≤ fev1Band f ∧ fev1Band f ≤ 4 := by
  cases f with
  | none => exact ⟨le_refl 1, by norm_num [fev1Band]⟩
  | some x => simp only [fev1Band]; split_ifs <;> omega

theorem daytimeBand_bounds (s : String) : 1 ≤ daytimeBand s ∧ daytimeBand s ≤ 4 := by
  unfold daytimeBand; split_ifs <;> omega

theorem nighttimeBand_bounds (s : String) : 1 ≤ nighttimeBand s ∧ nighttimeBand s ≤ 4 := by
  unfold nighttimeBand; split_ifs <;> omega

theorem activityBand_bounds (s : String) : 1 ≤ activityBand s ∧ activityBand s ≤ 4 := by
  unfold activityBand; split_ifs <;> omega

/-- For a severity in the reachable range the stage-name `switch` never takes
its `default` branch: the name is one of the four fixed names. -/
theorem stageName_cases (sev : ℕ) (h1 : 1 ≤ sev) (h4 : sev ≤ 4) :
    stageName sev = "Intermittent (Mild) Asthma" ∨
    stageName sev = "Mild Persistent Asthma" ∨
    stageName sev = "Moderate Persistent Asthma" ∨
    stageName sev = "Severe Persistent Asthma" := by
  interval_cases sev <;> simp [stageName]

/-- A category string missing from `daytimeMap` has band contribution 1. -/
theorem daytimeBand_of_unrecognized (s : String) (h : daytimeMap s = none) :
    daytimeBand s = 1 := by
  unfold daytimeMap at h
  unfold daytimeBand
  split_ifs at h ⊢
  rfl

/-- A category string missing from `nighttimeMap` has band contribution 1. -/
theorem nighttimeBand_of_unrecognized (s : String) (h : nighttimeMap s = none) :
    nighttimeBand s = 1 := by
  unfold nighttimeMap at h
  unfold nighttimeBand
  split_ifs at h ⊢
  rfl

/-- A category string missing from `activityMap` has band contribution 1. -/
theorem activityBand_of_unrecognized (s : String) (h : activityMap s = none) :
    activityBand s = 1 := by
  unfold activityMap at h
  unfold activityBand
  split_ifs at h ⊢
  rfl

/-! ## Claim theorems -/

/-- Claim C1: for every well-formed COPD input the GOLD grade is determined
solely by `fev1percent`, with closed lower bounds: `≥ 80 → GOLD 1`,
`50 ≤ _ < 80 → GOLD 2`, `30 ≤ _ < 50 → GOLD 3`, `< 30 → GOLD 4`; any two
inputs with the same `fev1percent` get the same grade regardless of every
other field. -/
theorem gold_grade_from_fev1_bands (i : CopdInput) :
    (80 ≤ i.fev1percent → goldGrade i = .gold1) ∧
    (50 ≤ i.fev1percent → i.fev1percent < 80 → goldGrade i = .gold2) ∧
    (30 ≤ i.fev1percent → i.fev1percent < 50 → goldGrade i = .gold3) ∧
    (i.fev1percent < 30 → goldGrade i = .gold4) ∧
    (∀ j : CopdInput, j.fev1percent = i.fev1percent → goldGrade j = goldGrade i) := by
  refine ⟨fun h => ?_, fun h1 h2 => ?_, fun h1 h2 => ?_, fun h => ?_, fun j hj => ?_⟩ <;>
    unfold goldGrade <;> try rw [hj]
  all_goals split_ifs <;> first | rfl | linarith

/-- Claim C1 witness: the boundary values 80, 50, 30 map to GOLD 1, 2, 3, a
value below 30 maps to GOLD 4, and an input with every other field changed
keeps the grade of its `fev1percent`. -/
theorem gold_grade_from_fev1_bands_witness :
    goldGrade ⟨1, 80, 0, 0, 0, [], ""⟩ = .gold1 ∧
    goldGrade ⟨1, 50, 0, 0, 0, [], ""⟩ = .gold2 ∧
    goldGrade ⟨1, 30, 0, 0, 0, [], ""⟩ = .gold3 ∧
    goldGrade ⟨1, 20, 0, 0, 0, [], ""⟩ = .gold4 ∧
    goldGrade ⟨0, 80, 5, 5, 4, ["SABA"], "7"⟩ = goldGrade ⟨1, 80, 0, 0, 0, [], ""⟩ :=
  ⟨(gold_grade_from_fev1_bands _).1 (by decide),
   (gold_grade_from_fev1_bands _).2.1 (by decide) (by decide),
   (gold_grade_from_fev1_bands _).2.2.1 (by decide) (by decide),
   (gold_grade_from_fev1_bands _).2.2.2.1 (by decide),
   (gold_grade_from_fev1_bands _).2.2.2.2 ⟨0, 80, 5, 5, 4, ["SABA"], "7"⟩ rfl⟩

/-- Claim C2: the ABE group is a first-match priority rule: one
hospitalization or two exacerbations force Group E regardless of mMRC;
otherwise mMRC of at least 2 gives Group B; otherwise Group A. -/
theorem abe_group_priority (i : CopdInput) :
    (1 ≤ i.hospitalizations ∨ 2 ≤ i.exacerbations → abeGroup i = .E) ∧
    (i.hospitalizations < 1 → i.exacerbations < 2 → 2 ≤ i.mmrc → abeGroup i = .B) ∧
    (i.hospitalizations < 1 → i.exacerbations < 2 → i.mmrc < 2 → abeGroup i = .A) := by
  refine ⟨fun h => ?_, fun h1 h2 h3 => ?_, fun h1 h2 h3 => ?_⟩ <;> unfold abeGroup
  · rw [if_pos h]
  all_goals split_ifs <;> first | rfl | omega

/-- Claim C2 witness: a hospitalization forces Group E even at mMRC 0; with
no exacerbation risk, mMRC 2 gives Group B and mMRC 1 gives Group A. -/
theorem abe_group_priority_witness :
    abeGroup ⟨1, 90, 0, 1, 0, [], ""⟩ = .E ∧
    abeGroup ⟨1, 90, 1, 0, 2, [], ""⟩ = .B ∧
    abeGroup ⟨1, 90, 1, 0, 1, [], ""⟩ = .A :=
  ⟨(abe_group_priority _).1 (Or.inl (by decide)),
   (abe_group_priority _).2.1 (by decide) (by decide) (by decide),
   (abe_group_priority _).2.2 (by decide) (by decide) (by decide)⟩

/-- Claim C3: the asthma severity is the maximum of the four independent band
contributions (FEV1 band, daytime band, nighttime band, activity band, each a
fixed category-to-integer table), in both source versions. -/
theorem asthma_severity_is_max_of_bands (i : AsthmaInput) :
    (computeAsthmaStage i).severity =
      max (max (max (fev1Band i.fev1) (daytimeBand i.daytime)) (nighttimeBand i.nighttime))
        (activityBand i.activity) ∧
    (computeAsthmaStageV2 i).severity =
      max (max (max (fev1Band i.fev1) (daytimeBand i.daytime)) (nighttimeBand i.nighttime))
        (activityBand i.activity) :=
  ⟨asthmaSeverity_eq_bands i, asthmaSeverity_eq_bands i⟩

/-- Claim C4: an unrecognized daytime, nighttime or activity category does
not fail; it contributes the mildest band value 1, behaving exactly like the
mildest recognized category, and an input whose three categorical fields are
all unrecognized with FEV1 absent or at least 80 gets severity 1 in both
source versions. -/
theorem unrecognized_category_fallback (i : AsthmaInput) :
    (daytimeMap i.daytime = none →
      asthmaSeverity i = asthmaSeverity { i with daytime := "<=2" }) ∧
    (nighttimeMap i.nighttime = none →
      asthmaSeverity i = asthmaSeverity { i with nighttime := "<=2" }) ∧
    (activityMap i.activity = none →
      asthmaSeverity i = asthmaSeverity { i with activity := "none" }) ∧
    (daytimeMap i.daytime = none → nighttimeMap i.nighttime = none →
      activityMap i.activity = none →
      (i.fev1 = none ∨ ∃ x, i.fev1 = some x ∧ 80 ≤ x) →
      (computeAsthmaStage i).severity = 1 ∧ (computeAsthmaStageV2 i).severity = 1) := by
  obtain ⟨f, d, n, a⟩ := i
  refine ⟨fun hd => ?_, fun hn => ?_, fun ha => ?_, fun hd hn ha hf => ?_⟩
  · rw [asthmaSeverity_eq_bands, asthmaSeverity_eq_bands]
    simp only
    rw [daytimeBand_of_unrecognized d hd]
    rfl
  · rw [asthmaSeverity_eq_bands, asthmaSeverity_eq_bands]
    simp only
    rw [nighttimeBand_of_unrecognized n hn]
    rfl
  · rw [asthmaSeverity_eq_bands, asthmaSeverity_eq_bands]
    simp only
    rw [activityBand_of_unrecognized a ha]
    rfl
  · have hsev : asthmaSeverity ⟨f, d, n, a⟩ = 1 := by
      rw [asthmaSeverity_eq_bands]
      simp only
      rw [daytimeBand_of_unrecognized d hd, nighttimeBand_of_unrecognized n hn,
        activityBand_of_unrecognized a ha]
      have hfb : fev1Band f = 1 := by
        rcases hf with hf | ⟨x, hx, hx80⟩
        · simp only at hf
          rw [hf]
          rfl
        · simp only at hx
          rw [hx]
          simp only [fev1Band]
          split_ifs <;> first | rfl | linarith
      rw [hfb]
      rfl
    exact ⟨hsev, by rw [show (computeAsthmaStageV2 ⟨f, d, n, a⟩).severity =
      asthmaSeverityV2 ⟨f, d, n, a⟩ from rfl, asthmaSeverityV2_eq]; exact hsev⟩

/-- Claim C4 witness: each unrecognized field alone behaves like the mildest
category, and an input with all three categories unrecognized and no FEV1
value gets severity 1 in both versions. -/
theorem unrecognized_category_fallback_witness :
    asthmaSeverity ⟨none, "weird", "<=2", "none"⟩ = asthmaSeverity ⟨none, "<=2", "<=2", "none"⟩ ∧
    asthmaSeverity ⟨none, "<=2", "weird", "none"⟩ = asthmaSeverity ⟨none, "<=2", "<=2", "none"⟩ ∧
    asthmaSeverity ⟨none, "<=2", "<=2", "weird"⟩ = asthmaSeverity ⟨none, "<=2", "<=2", "none"⟩ ∧
    ((computeAsthmaStage ⟨none, "w1", "w2", "w3"⟩).severity = 1 ∧
     (computeAsthmaStageV2 ⟨none, "w1", "w2", "w3"⟩).severity = 1) :=
  ⟨(unrecognized_category_fallback ⟨none, "weird", "<=2", "none"⟩).1 (by decide),
   (unrecognized_category_fallback ⟨none, "<=2", "weird", "none"⟩).2.1 (by decide),
   (unrecognized_category_fallback ⟨none, "<=2", "<=2", "weird"⟩).2.2.1 (by decide),
   (unrecognized_category_fallback ⟨none, "w1", "w2", "w3"⟩).2.2.2
     (by decide) (by decide) (by decide) (Or.inl rfl)⟩

/-- Claim C5: severity is monotone in each single contributor: replacing one
field of an asthma input by a value whose band contribution is at least as
large never decreases the computed severity. -/
theorem asthma_severity_monotone (i : AsthmaInput) (f : Option ℚ) (d n a : String) :
    (fev1Band i.fev1 ≤ fev1Band f →
      asthmaSeverity i ≤ asthmaSeverity { i with fev1 := f }) ∧
    (daytimeBand i.daytime ≤ daytimeBand d →
      asthmaSeverity i ≤ asthmaSeverity { i with daytime := d }) ∧
    (nighttimeBand i.nighttime ≤ nighttimeBand n →
      asthmaSeverity i ≤ asthmaSeverity { i with nighttime := n }) ∧
    (activityBand i.activity ≤ activityBand a →
      asthmaSeverity i ≤ asthmaSeverity { i with activity := a }) := by
  obtain ⟨f0, d0, n0, a0⟩ := i
  refine ⟨fun h => ?_, fun h => ?_, fun h => ?_, fun h => ?_⟩ <;>
    · rw [asthmaSeverity_eq_bands, asthmaSeverity_eq_bands]
      simp only at h ⊢
      omega

/-- Claim C5 witness: worsening FEV1 from 85 to 70, or the daytime, nighttime
or activity category from mildest to a worse one, never lowers the severity
of a concrete baseline input. -/
theorem asthma_severity_monotone_witness :
    asthmaSeverity ⟨some 85, "<=2", "<=2", "none"⟩ ≤
      asthmaSeverity ⟨some 70, "<=2", "<=2", "none"⟩ ∧
    asthmaSeverity ⟨some 85, "<=2", "<=2", "none"⟩ ≤
      asthmaSeverity ⟨some 85, "daily", "<=2", "none"⟩ ∧
    asthmaSeverity ⟨some 85, "<=2", "<=2", "none"⟩ ≤
      asthmaSeverity ⟨some 85, "<=2", "3-4", "none"⟩ ∧
    asthmaSeverity ⟨some 85, "<=2", "<=2", "none"⟩ ≤
      asthmaSeverity ⟨some 85, "<=2", "<=2", "extreme"⟩ :=
  ⟨(asthma_severity_monotone ⟨some 85, "<=2", "<=2", "none"⟩ (some 70) "daily" "3-4" "extreme").1
     (by decide),
   (asthma_severity_monotone ⟨some 85, "<=2", "<=2", "none"⟩ (some 70) "daily" "3-4" "extreme").2.1
     (by decide),
   (asthma_severity_monotone ⟨some 85, "<=2", "<=2", "none"⟩ (some 70) "daily" "3-4" "extreme").2.2.1
     (by decide),
   (asthma_severity_monotone ⟨some 85, "<=2", "<=2", "none"⟩ (some 70) "daily" "3-4" "extreme").2.2.2
     (by decide)⟩

/-- Claim C6: two well-formed COPD inputs that agree on every field other
than `ratio` get the same GOLD grade and the same ABE group, in both source
versions: the ratio feeds only the diagnostic-criterion note, and grade and
group are computed unconditionally. -/
theorem ratio_noninterference (i j : CopdInput)
    (hf : j.fev1percent = i.fev1percent) (he : j.exacerbations = i.exacerbations)
    (hh : j.hospitalizations = i.hospitalizations) (hm : j.mmrc = i.mmrc)
    (_hin : j.inhalers = i.inhalers) (_hfr : j.frequency = i.frequency) :
    (classifyCOPD j).goldGrade = (classifyCOPD i).goldGrade ∧
    (classifyCOPD j).abeGroup = (classifyCOPD i).abeGroup ∧
    (classifyCOPDV2 j).goldGrade = (classifyCOPDV2 i).goldGrade ∧
    (classifyCOPDV2 j).abeGroup = (classifyCOPDV2 i).abeGroup := by
  refine ⟨?_, ?_, ?_, ?_⟩ <;>
    simp [classifyCOPD, classifyCOPDV2, goldGrade, goldGradeV2, abeGroup, abeGroupV2,
      hf, he, hh, hm]

/-- Claim C6 witness: the classification of a concrete input is unchanged
when the ratio moves from 0.65 (below the 0.70 threshold) to 0.75 (above
it). -/
theorem ratio_noninterference_witness :
    (classifyCOPD ⟨75/100, 55, 1, 0, 1, [], ""⟩).goldGrade =
      (classifyCOPD ⟨65/100, 55, 1, 0, 1, [], ""⟩).goldGrade ∧
    (classifyCOPD ⟨75/100, 55, 1, 0, 1, [], ""⟩).abeGroup =
      (classifyCOPD ⟨65/100, 55, 1, 0, 1, [], ""⟩).abeGroup ∧
    (classifyCOPDV2 ⟨75/100, 55, 1, 0, 1, [], ""⟩).goldGrade =
      (classifyCOPDV2 ⟨65/100, 55, 1, 0, 1, [], ""⟩).goldGrade ∧
    (classifyCOPDV2 ⟨75/100, 55, 1, 0, 1, [], ""⟩).abeGroup =
      (classifyCOPDV2 ⟨65/100, 55, 1, 0, 1, [], ""⟩).abeGroup :=
  ratio_noninterference ⟨65/100, 55, 1, 0, 1, [], ""⟩ ⟨75/100, 55, 1, 0, 1, [], ""⟩
    rfl rfl rfl rfl rfl rfl

/-- Claim C7: when any required COPD field fails to parse (or no mMRC radio
is selected), `computeCOPD` stops at the validation guard: no classification
result is produced and the display state is left exactly as it was. -/
theorem copd_validation_blocks (f : CopdForm)
    (h : f.ratio = none ∨ f.fev1percent = none ∨ f.exacerbations = none ∨
      f.hospitalizations = none ∨ f.mmrc = none) :
    computeCOPD f = none ∧ ∀ d : CopdDisplay, copdStep f d = d := by
  obtain ⟨r, fp, ex, ho, m, inh, fr⟩ := f
  have hnone : computeCOPD ⟨r, fp, ex, ho, m, inh, fr⟩ = none := by
    cases r <;> cases fp <;> cases ex <;> cases ho <;> cases m <;>
      simp_all [computeCOPD]
  exact ⟨hnone, fun d => by simp [copdStep, hnone]⟩

/-- Claim C7 witness: a form with a missing ratio yields no result, and an
arbitrary concrete display state (form visible, empty result) is left
untouched. -/
theorem copd_validation_blocks_witness :
    computeCOPD ⟨none, some 55, some 1, some 0, some 1, [], ""⟩ = none ∧
    copdStep ⟨none, some 55, some 1, some 0, some 1, [], ""⟩ ⟨true, none⟩ = ⟨true, none⟩ :=
  ⟨(copd_validation_blocks ⟨none, some 55, some 1, some 0, some 1, [], ""⟩ (Or.inl rfl)).1,
   (copd_validation_blocks ⟨none, some 55, some 1, some 0, some 1, [], ""⟩ (Or.inl rfl)).2
     ⟨true, none⟩⟩

/-- Claim C8: the recommendation in the second COPD version is a static
lookup by ABE group alone: it always equals the three-paragraph table at the
result's group, and any two inputs with the same ABE group get the same
recommendation whatever their other fields. -/
theorem recommendation_pure_in_group (i : CopdInput) :
    (classifyCOPDV2 i).recommendation = copdRecommendationTable (classifyCOPDV2 i).abeGroup ∧
    ∀ j : CopdInput, (classifyCOPDV2 j).abeGroup = (classifyCOPDV2 i).abeGroup →
      (classifyCOPDV2 j).recommendation = (classifyCOPDV2 i).recommendation := by
  have key : ∀ k : CopdInput,
      (classifyCOPDV2 k).recommendation = copdRecommendationTable (classifyCOPDV2 k).abeGroup := by
    intro k
    show copdRecommendation k = copdRecommendationTable (abeGroupV2 k)
    unfold copdRecommendation
    cases hg : abeGroupV2 k <;> simp [copdRecommendationTable]
  refine ⟨key i, fun j hj => ?_⟩
  rw [key j, key i, hj]

/-- Claim C8 witness: two Group E inputs that differ in every other field
(one by hospitalization, one by exacerbations, with different grades) get the
same recommendation, equal to the Group E table entry. -/
theorem recommendation_pure_in_group_witness :
    (classifyCOPDV2 ⟨1, 90, 0, 1, 0, [], ""⟩).recommendation =
      copdRecommendationTable (classifyCOPDV2 ⟨1, 90, 0, 1, 0, [], ""⟩).abeGroup ∧
    (classifyCOPDV2 ⟨0, 40, 2, 0, 4, ["LAMA"], "3"⟩).recommendation =
      (classifyCOPDV2 ⟨1, 90, 0, 1, 0, [], ""⟩).recommendation :=
  ⟨(recommendation_pure_in_group ⟨1, 90, 0, 1, 0, [], ""⟩).1,
   (recommendation_pure_in_group ⟨1, 90, 0, 1, 0, [], ""⟩).2
     ⟨0, 40, 2, 0, 4, ["LAMA"], "3"⟩ (by decide)⟩

/-- Claim C9: for every asthma input the severity lies between 1 and 4, so
the `default` branch of the stage-name `switch` is unreachable and the stage
name is one of the four fixed names. -/
theorem asthma_severity_in_range (i : AsthmaInput) :
    (1 ≤ (computeAsthmaStage i).severity ∧ (computeAsthmaStage i).severity ≤ 4) ∧
    ((computeAsthmaStage i).stageName = "Intermittent (Mild) Asthma" ∨
     (computeAsthmaStage i).stageName = "Mild Persistent Asthma" ∨
     (computeAsthmaStage i).stageName = "Moderate Persistent Asthma" ∨
     (computeAsthmaStage i).stageName = "Severe Persistent Asthma") := by
  have hb := asthmaSeverity_eq_bands i
  have h1 := fev1Band_bounds i.fev1
  have h2 := daytimeBand_bounds i.daytime
  have h3 := nighttimeBand_bounds i.nighttime
  have h4 := activityBand_bounds i.activity
  have hrange : 1 ≤ asthmaSeverity i ∧ asthmaSeverity i ≤ 4 := by rw [hb]; omega
  exact ⟨hrange, stageName_cases (asthmaSeverity i) hrange.1 hrange.2⟩

/-- Claim C10: the two source versions of each classifier are
classification-equivalent: same GOLD grade and ABE group for every COPD
input, and same severity and stage name for every asthma input. -/
theorem versions_equivalent :
    (∀ i : CopdInput,
      (classifyCOPD i).goldGrade = (classifyCOPDV2 i).goldGrade ∧
      (classifyCOPD i).abeGroup = (classifyCOPDV2 i).abeGroup) ∧
    (∀ j : AsthmaInput,
      (computeAsthmaStage j).severity = (computeAsthmaStageV2 j).severity ∧
      (computeAsthmaStage j).stageName = (computeAsthmaStageV2 j).stageName) :=
  ⟨fun _ => ⟨rfl, rfl⟩, fun _ => ⟨rfl, rfl⟩⟩

end CopdAsthma
